import Mathlib

/-!
Shallow embedding of `bevy_editor_panes/bevy_node_graph/src/lib.rs`
(the node-graph pane of the Bevy editor prototypes).

Machine floats (`f32`) are idealised as rationals; Bevy entities and
asset handles are identifiers; ECS queries are modelled as the finite
data they yield; `.unwrap()` panics are modelled by `Option.none`.
-/

namespace NodeGraphSpec

/-- An ECS entity identifier. -/
abbrev Entity := Nat

/-- Models `Entity::PLACEHOLDER` (`Entity::from_raw(u32::MAX)`). -/
def placeholderEntity : Entity := 2 ^ 32 - 1

/-- An asset handle identifier (`Handle<Image>`). -/
abbrev Handle := Nat

/-- A 2D vector with rational coordinates, idealising Bevy's `Vec2` of `f32`. -/
structure Vec2 where
  x : ℚ
  y : ℚ
deriving DecidableEq, Repr

instance : Sub Vec2 := ⟨fun a b => ⟨a.x - b.x, a.y - b.y⟩⟩

/-- A 2D rectangle, as Bevy's `Rect` (min and max corner). -/
structure Rect where
  min : Vec2
  max : Vec2
deriving DecidableEq, Repr

/-- Models `Rect::from_center_size`. -/
def Rect.from_center_size (center size : Vec2) : Rect :=
  { min := ⟨center.x - size.x / 2, center.y - size.y / 2⟩
    max := ⟨center.x + size.x / 2, center.y + size.y / 2⟩ }

/-- Models `bevy::render::camera::NormalizedRenderTarget`. -/
inductive NormalizedRenderTarget where
  | window (id : Nat)
  | image (handle : Handle)
  | textureView (id : Nat)
deriving DecidableEq, Repr

/-- Models `matches!(target, NormalizedRenderTarget::Window(..))`. -/
def NormalizedRenderTarget.isWindow : NormalizedRenderTarget → Bool
  | .window _ => true
  | _ => false

/-- Models `bevy::picking::pointer::Location`. -/
structure Location where
  position : Vec2
  target : NormalizedRenderTarget
deriving DecidableEq, Repr

/-- Models `bevy::picking::pointer::PointerInput`; the action payload is opaque
and is duplicated unchanged. -/
structure PointerInput where
  pointer_id : Nat
  location : Location
  action : Nat
deriving DecidableEq, Repr

/-- Models `bevy::ui::ComputedNode` (only the computed size is used). -/
structure ComputedNode where
  size : Vec2
deriving DecidableEq, Repr

/-- Models `bevy::transform::GlobalTransform` (only `translation().xy()` is used). -/
structure GlobalTransform where
  translation : Vec2
deriving DecidableEq, Repr

/-- Models `bevy::ui::UiImage` (only the texture handle is used). -/
structure UiImage where
  texture : Handle
deriving DecidableEq, Repr

/-- The `NodeGraph` component: records the pane's viewport camera. -/
structure NodeGraph where
  camera : Entity
deriving DecidableEq, Repr

/-- Models `NodeGraph::default()`. -/
def NodeGraph.default : NodeGraph := { camera := placeholderEntity }

/-- Breadth-first traversal of the child lists, with explicit fuel
bounding the number of visited entities. -/
def descendantsAux (children : Entity → List Entity) :
    Nat → List Entity → List Entity
  | 0, _ => []
  | _ + 1, [] => []
  | fuel + 1, e :: queue => e :: descendantsAux children fuel (queue ++ children e)

/-- Models `children_query.iter_descendants(root)`: all descendants of `root`
(excluding `root` itself), breadth first. -/
def iterDescendants (children : Entity → List Entity) (fuel : Nat)
    (root : Entity) : List Entity :=
  descendantsAux children fuel (children root)

/-- The data read and written by `render_target_picking_passthrough`. -/
structure PassthroughWorld where
  /-- Models `Query<(Entity, &NodeGraph)>`. -/
  viewports : List (Entity × NodeGraph)
  /-- Entities carrying the `PaneContentNode` marker. -/
  content : List Entity
  /-- Models `Query<&Children>` (empty list when the component is absent). -/
  children : Entity → List Entity
  /-- Traversal fuel for `iter_descendants`. -/
  fuel : Nat
  /-- Models `Query<(&ComputedNode, &GlobalTransform, &UiImage), With<Active>>`:
  `some` exactly on entities carrying the `Active` marker. -/
  nodeQuery : Entity → Option (ComputedNode × GlobalTransform × UiImage)
  /-- Models `Query<(&PointerId, &mut PointerLocation)>`. -/
  pointers : List (Nat × Option Location)

/-- The effect of one run of the passthrough system: the duplicated
events it sent and the final pointer locations. -/
structure SentState where
  sent : List PointerInput
  pointers : List (Nat × Option Location)
deriving DecidableEq

/-- Models `pointers.iter_mut().find(|(id, _)| **id == target)` followed by the
assignment of the new location: updates the first matching pointer. -/
def updatePointer : List (Nat × Option Location) → Nat → Location →
    List (Nat × Option Location)
  | [], _, _ => []
  | (pid, loc) :: rest, target, newLoc =>
    if pid = target then (pid, some newLoc) :: rest
    else (pid, loc) :: updatePointer rest target newLoc

/-- The location the passthrough computes for an active image node:
the window position minus the node rectangle's top-left corner, retargeted
to the node's render-target image. -/
def remapLocation (event : PointerInput) (computed_node : ComputedNode)
    (global_transform : GlobalTransform) (ui_image : UiImage) : Location :=
  let node_rect := Rect.from_center_size global_transform.translation computed_node.size
  { position := event.location.position - node_rect.min
    target := .image ui_image.texture }

/-- The body of the inner `for (pane_root, _viewport) in &viewports` loop of
`render_target_picking_passthrough`. `none` models an `unwrap` panic. -/
def processPane (w : PassthroughWorld) (event : PointerInput)
    (acc : SentState) (pane : Entity × NodeGraph) : Option SentState :=
  match (iterDescendants w.children w.fuel pane.1).find? (fun e => w.content.contains e) with
  | none => none
  | some content_node_id =>
    match w.children content_node_id with
    | [] => none
    | image_id :: _ =>
      match w.nodeQuery image_id with
      | none => some acc
      | some (computed_node, global_transform, ui_image) =>
        let new_location := remapLocation event computed_node global_transform ui_image
        let new_event := { event with location := new_location }
        some { sent := acc.sent ++ [new_event]
               pointers := updatePointer acc.pointers event.pointer_id new_location }

/-- The body of the outer `for event in pointer_input_reader.read()` loop:
events not targeting a window are skipped. -/
def processEvent (w : PassthroughWorld) (acc : SentState)
    (event : PointerInput) : Option SentState :=
  if event.location.target.isWindow then
    w.viewports.foldlM (processPane w event) acc
  else
    some acc

/-- Models `render_target_picking_passthrough`: for each window-targeted pointer
event and each node-graph pane with an `Active` image node, duplicates the
event into the pane's render target and relocates the matching pointer. -/
def render_target_picking_passthrough (w : PassthroughWorld)
    (events : List PointerInput) : Option SentState :=
  events.foldlM (processEvent w) { sent := [], pointers := w.pointers }

/-- Models `bevy::render::camera::RenderTarget`. -/
inductive RenderTarget where
  | window (id : Nat)
  | image (handle : Handle)
  | textureView (id : Nat)
deriving DecidableEq, Repr

/-- Models `RenderTarget::as_image`. -/
def RenderTarget.as_image : RenderTarget → Option Handle
  | .image h => some h
  | _ => none

/-- Models `bevy::render::render_resource::TextureFormat` (only the two formats
this crate touches, plus a default stand-in for the rest). -/
inductive TextureFormat where
  | rgba8UnormSrgb
  | bgra8UnormSrgb
deriving DecidableEq, Repr

/-- Models `Extent3d`. -/
structure Extent3d where
  width : Nat
  height : Nat
  depth_or_array_layers : Nat
deriving DecidableEq, Repr

/-- An `Image` asset: its extent, format, and whether its usage flags
include `TextureUsages::RENDER_ATTACHMENT`. -/
structure Image where
  size : Extent3d
  format : TextureFormat
  render_attachment : Bool
deriving DecidableEq, Repr

/-- Models `Image::default()`: a 1x1x1 `Rgba8UnormSrgb` image without the
render-attachment usage. -/
def Image.default : Image :=
  { size := ⟨1, 1, 1⟩, format := .rgba8UnormSrgb, render_attachment := false }

/-- Models `Image::resize`: reallocates the image to the new extent. -/
def Image.resize (img : Image) (size : Extent3d) : Image :=
  { img with size := size }

/-- Rust's saturating `f32 as u32` cast on the rational idealisation:
negative values clamp to 0, values beyond `u32::MAX` clamp to `u32::MAX`,
and the rest truncate toward zero. -/
def ratAsU32 (q : ℚ) : Nat :=
  if q ≤ 0 then 0 else min (2 ^ 32 - 1) (Int.toNat ⌊q⌋)

/-- The `Camera` component (only the render target is used). -/
structure Camera where
  target : RenderTarget
deriving DecidableEq, Repr

/-- The `EditorCamera2d` component (the fields this crate touches). -/
structure EditorCamera2d where
  enabled : Bool
  viewport_override : Option Rect
deriving DecidableEq, Repr

/-- The data read and written by `update_render_target_size`. -/
structure ResizeWorld where
  /-- Models `Query<(Entity, &NodeGraph)>`. -/
  query : List (Entity × NodeGraph)
  /-- Entities carrying the `PaneContentNode` marker. -/
  content : List Entity
  /-- Models `Query<&Children>` (empty list when the component is absent). -/
  children : Entity → List Entity
  /-- Traversal fuel for `iter_descendants`. -/
  fuel : Nat
  /-- Models `Query<(&ComputedNode, &GlobalTransform),
  Or<(Changed<ComputedNode>, Changed<GlobalTransform>)>>`: `some` exactly
  on the entities whose node data changed during this frame's layout. -/
  posQuery : Entity → Option (ComputedNode × GlobalTransform)
  /-- Models `Query<(&Camera, &mut EditorCamera2d)>`. -/
  cameras : Entity → Option (Camera × EditorCamera2d)
  /-- Models `ResMut<Assets<Image>>`. -/
  images : Handle → Option Image

/-- The body of the `for (pane_root, viewport) in &query` loop of
`update_render_target_size`, threading the mutable camera and image
stores. `none` models an `unwrap` panic. -/
def resizePane (w : ResizeWorld)
    (st : (Entity → Option (Camera × EditorCamera2d)) × (Handle → Option Image))
    (pane : Entity × NodeGraph) :
    Option ((Entity → Option (Camera × EditorCamera2d)) × (Handle → Option Image)) :=
  match (iterDescendants w.children w.fuel pane.1).find? (fun e => w.content.contains e) with
  | none => none
  | some content_node_id =>
    match w.posQuery content_node_id with
    | none => some st
    | some (computed_node, global_transform) =>
      let content_node_size := computed_node.size
      let node_position := global_transform.translation
      let rect := Rect.from_center_size node_position computed_node.size
      match st.1 pane.2.camera with
      | none => none
      | some (camera, editor_camera) =>
        let cameras' := fun e =>
          if e = pane.2.camera then
            some (camera, { editor_camera with viewport_override := some rect })
          else st.1 e
        match camera.target.as_image with
        | none => none
        | some image_handle =>
          match st.2 image_handle with
          | none => none
          | some img =>
            let size : Extent3d :=
              { width := max 1 (ratAsU32 content_node_size.x)
                height := max 1 (ratAsU32 content_node_size.y)
                depth_or_array_layers := 1 }
            let images' := fun h =>
              if h = image_handle then some (img.resize size) else st.2 h
            some (cameras', images')

/-- Models `update_render_target_size`: after UI layout, resizes each pane's
render-target image to the content node's size and overrides the editor
camera's viewport with the content node's rectangle. -/
def update_render_target_size (w : ResizeWorld) :
    Option ((Entity → Option (Camera × EditorCamera2d)) × (Handle → Option Image)) :=
  w.query.foldlM (resizePane w) (w.cameras, w.images)

/-- The entity-targeted observers `on_pane_creation` installs on the
pane's image node. -/
inductive ObserverKind where
  | overInsertActive
  | outRemoveActive
  | moveEnableCamera (camera : Entity)
  | outDisableCamera (camera : Entity)
deriving DecidableEq, Repr

/-- An entity observer: which entity it watches and what it does. -/
structure Observer where
  node : Entity
  kind : ObserverKind
deriving DecidableEq, Repr

/-- A pointer event delivered to a UI entity by the picking pipeline
(`Pointer<Over>` / `Pointer<Out>` / `Pointer<Move>`). -/
inductive EntityPointerEvent where
  | over (node : Entity)
  | out (node : Entity)
  | move (node : Entity)
deriving DecidableEq, Repr

/-- The slice of the ECS world touched by the pane lifecycle. -/
structure PaneWorld where
  /-- The next entity id the world will allocate. -/
  nextEntity : Entity
  /-- The next `Handle<Image>` id `Assets<Image>` will allocate. -/
  nextHandle : Handle
  /-- Parent-to-children lists. -/
  children : Entity → List Entity
  /-- Traversal fuel for `iter_descendants`. -/
  fuel : Nat
  /-- Entities carrying the `PaneContentNode` marker. -/
  content : List Entity
  /-- The `NodeGraph` components. -/
  nodeGraphs : Entity → Option NodeGraph
  /-- The `UiImage` components. -/
  uiImages : Entity → Option UiImage
  /-- The `Camera` and `EditorCamera2d` components. -/
  cameras : Entity → Option (Camera × EditorCamera2d)
  /-- Models `Assets<Image>`. -/
  imageAssets : Handle → Option Image
  /-- The installed entity observers. -/
  observers : List Observer
  /-- Entities carrying the `Active` marker. -/
  active : Entity → Bool

/-- Models `on_pane_creation` (the `OnAdd, NodeGraph` observer): finds the pane's
content node, creates a fresh render-target image asset, spawns the UI
image node under the content node together with its four pointer
observers, spawns the disabled 2D editor camera targeting the image, and
records the camera in the pane's `NodeGraph`. `none` models an `unwrap`
panic. -/
def on_pane_creation (w : PaneWorld) (pane_root : Entity) : Option PaneWorld :=
  match (iterDescendants w.children w.fuel pane_root).find? (fun e => w.content.contains e) with
  | none => none
  | some content_node =>
    match w.nodeGraphs pane_root with
    | none => none
    | some _ =>
      let image : Image :=
        { Image.default with render_attachment := true, format := .bgra8UnormSrgb }
      let image_handle := w.nextHandle
      let image_id := w.nextEntity
      let camera_id := w.nextEntity + 1
      some { w with
        nextEntity := w.nextEntity + 2
        nextHandle := w.nextHandle + 1
        imageAssets := fun h =>
          if h = image_handle then some image else w.imageAssets h
        uiImages := fun e =>
          if e = image_id then some { texture := image_handle } else w.uiImages e
        children := fun e =>
          if e = content_node then w.children e ++ [image_id] else w.children e
        cameras := fun e =>
          if e = camera_id then
            some ({ target := .image image_handle },
                  { enabled := false, viewport_override := none })
          else w.cameras e
        observers := w.observers ++
          [{ node := image_id, kind := .overInsertActive },
           { node := image_id, kind := .outRemoveActive },
           { node := image_id, kind := .moveEnableCamera camera_id },
           { node := image_id, kind := .outDisableCamera camera_id }]
        nodeGraphs := fun e =>
          if e = pane_root then some { camera := camera_id } else w.nodeGraphs e }

/-- Removes one entity from every component store, child list and
observer attachment. -/
def despawnEntity (w : PaneWorld) (e : Entity) : PaneWorld :=
  { w with
    nodeGraphs := fun x => if x = e then none else w.nodeGraphs x
    uiImages := fun x => if x = e then none else w.uiImages x
    cameras := fun x => if x = e then none else w.cameras x
    children := fun p => (w.children p).filter (fun c => c ≠ e)
    active := fun x => if x = e then false else w.active x
    observers := w.observers.filter (fun o => o.node ≠ e) }

/-- Models `despawn_recursive`: despawns an entity and all its descendants. -/
def despawn_recursive (w : PaneWorld) (e : Entity) : PaneWorld :=
  (e :: iterDescendants w.children w.fuel e).foldl despawnEntity w

/-- The `OnRemove, NodeGraph` observer from `NodeGraphPlugin::build`:
despawns the viewport camera recorded in the removed pane's `NodeGraph`
component, recursively. `none` models the `unwrap` panic. -/
def on_node_graph_remove (w : PaneWorld) (pane_root : Entity) : Option PaneWorld :=
  match w.nodeGraphs pane_root with
  | none => none
  | some node_graph => some (despawn_recursive w node_graph.camera)

/-- The state acted on by the image node's pointer observers. -/
structure ObserverState where
  active : Entity → Bool
  cameras : Entity → Option (Camera × EditorCamera2d)

/-- Delivers one pointer event to one observer. An observer only reacts
to its own watched entity; the camera observers `unwrap` the camera
lookup (`none` models the panic). -/
def fireObserver (ev : EntityPointerEvent) (st : ObserverState)
    (obs : Observer) : Option ObserverState :=
  match ev, obs.kind with
  | .over n, .overInsertActive =>
    if n = obs.node then
      some { st with active := fun x => if x = n then true else st.active x }
    else some st
  | .out n, .outRemoveActive =>
    if n = obs.node then
      some { st with active := fun x => if x = n then false else st.active x }
    else some st
  | .move n, .moveEnableCamera cam =>
    if n = obs.node then
      match st.cameras cam with
      | none => none
      | some (c, ec) =>
        some { st with cameras := fun x =>
          if x = cam then some (c, { ec with enabled := true }) else st.cameras x }
    else some st
  | .out n, .outDisableCamera cam =>
    if n = obs.node then
      match st.cameras cam with
      | none => none
      | some (c, ec) =>
        some { st with cameras := fun x =>
          if x = cam then some (c, { ec with enabled := false }) else st.cameras x }
    else some st
  | _, _ => some st

/-- Delivers one pointer event to every installed observer. -/
def stepEvent (obsList : List Observer) (st : ObserverState)
    (ev : EntityPointerEvent) : Option ObserverState :=
  obsList.foldlM (fireObserver ev) st

/-- Delivers a sequence of pointer events. -/
def runEvents (obsList : List Observer) (st : ObserverState)
    (evs : List EntityPointerEvent) : Option ObserverState :=
  evs.foldlM (stepEvent obsList) st

/-- The plugins `NodeGraphPlugin::build` may add. -/
inductive PluginId where
  | infiniteGrid
  | editorCamera2d
deriving DecidableEq, Repr

/-- The systems `NodeGraphPlugin::build` adds. -/
inductive SystemId where
  | setupSys
  | passthroughSys
  | resizeSys
deriving DecidableEq, Repr

/-- The app-level observers `NodeGraphPlugin::build` adds. -/
inductive ObserverReg where
  | onPaneCreationObs
  | onNodeGraphRemoveObs
deriving DecidableEq, Repr

/-- A pane-creation callback held by the pane registry. -/
inductive PaneCallback where
  | insertNodeGraphDefault
deriving DecidableEq, Repr

/-- The slice of the Bevy `App` that `NodeGraphPlugin::build` touches. -/
structure App where
  plugins : List PluginId
  startupSystems : List SystemId
  preUpdateSystems : List SystemId
  postUpdateSystems : List SystemId
  appObservers : List ObserverReg
  paneRegistry : List (String × PaneCallback)
deriving DecidableEq, Repr

/-- Models `App::is_plugin_added`. -/
def App.is_plugin_added (app : App) (p : PluginId) : Bool :=
  app.plugins.contains p

/-- Models `App::add_plugins` for a single plugin. -/
def App.add_plugins (app : App) (p : PluginId) : App :=
  { app with plugins := app.plugins ++ [p] }

/-- Modelled from the spec: `PaneRegistry::register` from the
`bevy_pane_layout` crate (not under the sources given) records a named
pane type with its creation callback in the registry. -/
def PaneRegistry.register (reg : List (String × PaneCallback)) (name : String)
    (cb : PaneCallback) : List (String × PaneCallback) :=
  reg ++ [(name, cb)]

/-- The effect of a registered pane-creation callback on the world. The
one this crate registers inserts `NodeGraph::default()` on the pane
root. -/
def runPaneCallback : PaneCallback → PaneWorld → Entity → PaneWorld
  | .insertNodeGraphDefault, w, pane_root =>
    { w with nodeGraphs := fun e =>
        if e = pane_root then some NodeGraph.default else w.nodeGraphs e }

/-- Models `NodeGraphPlugin::build`. -/
def NodeGraphPlugin.build (app : App) : App :=
  let app1 :=
    if !app.is_plugin_added .infiniteGrid then app.add_plugins .infiniteGrid else app
  let app2 :=
    if !app1.is_plugin_added .editorCamera2d then app1.add_plugins .editorCamera2d
    else app1
  let app3 := { app2 with
    startupSystems := app2.startupSystems ++ [SystemId.setupSys]
    preUpdateSystems := app2.preUpdateSystems ++ [SystemId.passthroughSys]
    postUpdateSystems := app2.postUpdateSystems ++ [SystemId.resizeSys]
    appObservers := app2.appObservers ++
      [ObserverReg.onPaneCreationObs, ObserverReg.onNodeGraphRemoveObs] }
  { app3 with
    paneRegistry :=
      PaneRegistry.register app3.paneRegistry "Node Graph" .insertNodeGraphDefault }

/-! ### Theorems -/

/-- Updating the first pointer matching an id relocates exactly the
pointer that `find?` by that id yields. -/
theorem updatePointer_find (ps : List (Nat × Option Location)) (pid : Nat)
    (loc : Location) :
    (updatePointer ps pid loc).find? (fun p => p.1 == pid) =
      (ps.find? (fun p => p.1 == pid)).map (fun p => (p.1, some loc)) := by
  induction ps with
  | nil => simp [updatePointer]
  | cons hd tl ih =>
    obtain ⟨hpid, hloc⟩ := hd
    by_cases h : hpid = pid <;>
      simp [updatePointer, h, List.find?_cons, ih]

/-- A sample passthrough world: one pane (root `0`, camera `10`), content
node `1`, active image node `2` of size 4x4 centred at (3, 3) displaying
image handle `7`, and one pointer with id `5`. -/
def sampleW : PassthroughWorld :=
  { viewports := [(0, ⟨10⟩)]
    content := [1]
    children := fun e => if e = 0 then [1] else if e = 1 then [2] else []
    fuel := 10
    nodeQuery := fun e => if e = 2 then some (⟨⟨4, 4⟩⟩, ⟨⟨3, 3⟩⟩, ⟨7⟩) else none
    pointers := [(5, none)] }

/-- A sample window-targeted pointer event at position (10, 10). -/
def sampleEvent : PointerInput := ⟨5, ⟨⟨10, 10⟩, .window 0⟩, 0⟩


/-- Componentwise description of `Vec2` subtraction. -/
theorem Vec2.sub_def (a b : Vec2) : a - b = ⟨a.x - b.x, a.y - b.y⟩ := rfl

/-- When the pane's lookups succeed and the image node is active,
`processPane` appends the remapped duplicate event and relocates the
matching pointer. -/
theorem processPane_active
    (w : PassthroughWorld) (event : PointerInput) (acc : SentState)
    (pane : Entity × NodeGraph) (content_node_id image_id : Entity)
    (rest : List Entity)
    (cn : ComputedNode) (gt : GlobalTransform) (ui : UiImage)
    (hfind : (iterDescendants w.children w.fuel pane.1).find?
        (fun e => w.content.contains e) = some content_node_id)
    (hchild : w.children content_node_id = image_id :: rest)
    (hactive : w.nodeQuery image_id = some (cn, gt, ui)) :
    processPane w event acc pane =
      some { sent := acc.sent ++ [{ event with location := remapLocation event cn gt ui }]
             pointers := updatePointer acc.pointers event.pointer_id
               (remapLocation event cn gt ui) } := by
  simp only [processPane, hfind, hchild, hactive]

/-- When the pane's lookups succeed but the image node is not active,
`processPane` is the identity on the accumulated effect. -/
theorem processPane_inactive
    (w : PassthroughWorld) (event : PointerInput) (acc : SentState)
    (pane : Entity × NodeGraph) (content_node_id image_id : Entity)
    (rest : List Entity)
    (hfind : (iterDescendants w.children w.fuel pane.1).find?
        (fun e => w.content.contains e) = some content_node_id)
    (hchild : w.children content_node_id = image_id :: rest)
    (hinactive : w.nodeQuery image_id = none) :
    processPane w event acc pane = some acc := by
  simp only [processPane, hfind, hchild, hinactive]

/-- A single window-targeted event processed against a single pane. -/
theorem passthrough_single
    (w : PassthroughWorld) (event : PointerInput) (pane : Entity × NodeGraph)
    (hwin : event.location.target.isWindow = true)
    (hview : w.viewports = [pane]) :
    render_target_picking_passthrough w [event] =
      processPane w event { sent := [], pointers := w.pointers } pane := by
  simp only [render_target_picking_passthrough, processEvent, hview,
    List.foldlM, hwin, if_true]
  cases processPane w event { sent := [], pointers := w.pointers } pane <;> rfl

/-- Claim C1: for a pointer input event targeting a window and a
node-graph pane whose image node carries the `Active` marker,
`render_target_picking_passthrough` re-emits a duplicate of the event
targeting the pane's render-target image, positioned at the original
window-space position minus the image node rectangle's top-left corner
(the node's global translation minus half its computed size), and the
matching pointer's location is set to that same remapped location. -/
theorem passthrough_remaps_active_pane
    (w : PassthroughWorld) (event : PointerInput) (pane : Entity × NodeGraph)
    (content_node_id image_id : Entity) (rest : List Entity)
    (cn : ComputedNode) (gt : GlobalTransform) (ui : UiImage)
    (new_location : Location)
    (hwin : event.location.target.isWindow = true)
    (hview : w.viewports = [pane])
    (hfind : (iterDescendants w.children w.fuel pane.1).find?
        (fun e => w.content.contains e) = some content_node_id)
    (hchild : w.children content_node_id = image_id :: rest)
    (hactive : w.nodeQuery image_id = some (cn, gt, ui))
    (hloc : new_location =
      { position := event.location.position -
          ⟨gt.translation.x - cn.size.x / 2, gt.translation.y - cn.size.y / 2⟩
        target := .image ui.texture }) :
    render_target_picking_passthrough w [event] =
      some { sent := [{ event with location := new_location }]
             pointers := updatePointer w.pointers event.pointer_id new_location } ∧
    (updatePointer w.pointers event.pointer_id new_location).find?
        (fun p => p.1 == event.pointer_id) =
      (w.pointers.find? (fun p => p.1 == event.pointer_id)).map
        (fun p => (p.1, some new_location)) := by
  have hrl : remapLocation event cn gt ui = new_location := by
    rw [hloc]; rfl
  refine ⟨?_, updatePointer_find ..⟩
  rw [passthrough_single w event pane hwin hview,
    processPane_active w event _ pane content_node_id image_id rest cn gt ui
      hfind hchild hactive, hrl]
  rfl

/-- Concrete instance of C1: the sample event at (10, 10) over the
sample pane is re-emitted at (9, 9) targeting image handle 7, and
pointer 5 is relocated there. -/
theorem passthrough_remaps_active_pane_witness :
    render_target_picking_passthrough sampleW [sampleEvent] =
      some { sent := [{ sampleEvent with location := ⟨⟨9, 9⟩, .image 7⟩ }]
             pointers := updatePointer sampleW.pointers 5 ⟨⟨9, 9⟩, .image 7⟩ } ∧
    (updatePointer sampleW.pointers 5 ⟨⟨9, 9⟩, .image 7⟩).find?
        (fun p => p.1 == 5) =
      (sampleW.pointers.find? (fun p => p.1 == 5)).map
        (fun p => (p.1, some ⟨⟨9, 9⟩, .image 7⟩)) :=
  passthrough_remaps_active_pane sampleW sampleEvent (0, ⟨10⟩) 1 2 []
    ⟨⟨4, 4⟩⟩ ⟨⟨3, 3⟩⟩ ⟨7⟩ ⟨⟨9, 9⟩, .image 7⟩ rfl rfl (by decide) rfl rfl
    (by norm_num [sampleEvent, Vec2.sub_def, Location.mk.injEq, Vec2.mk.injEq])


/-- A variant of the sample world whose image node is not active. -/
def sampleWInactive : PassthroughWorld :=
  { sampleW with nodeQuery := fun _ => none }

/-- Claim C10: a window-targeted pointer event processed against a
node-graph pane whose image node does not carry the `Active` marker
leaves the world unchanged with respect to that pane: no duplicate event
is sent for it and no pointer location is modified on its behalf. -/
theorem passthrough_inactive_pane_no_effect
    (w : PassthroughWorld) (event : PointerInput) (pane : Entity × NodeGraph)
    (content_node_id image_id : Entity) (rest : List Entity)
    (hwin : event.location.target.isWindow = true)
    (hview : w.viewports = [pane])
    (hfind : (iterDescendants w.children w.fuel pane.1).find?
        (fun e => w.content.contains e) = some content_node_id)
    (hchild : w.children content_node_id = image_id :: rest)
    (hinactive : w.nodeQuery image_id = none) :
    render_target_picking_passthrough w [event] =
      some { sent := [], pointers := w.pointers } := by
  rw [passthrough_single w event pane hwin hview,
    processPane_inactive w event _ pane content_node_id image_id rest
      hfind hchild hinactive]

/-- Concrete instance of C10: with the sample pane inactive, the sample
event produces no duplicate and pointer 5 keeps its location. -/
theorem passthrough_inactive_pane_no_effect_witness :
    render_target_picking_passthrough sampleWInactive [sampleEvent] =
      some { sent := [], pointers := sampleWInactive.pointers } :=
  passthrough_inactive_pane_no_effect sampleWInactive sampleEvent (0, ⟨10⟩)
    1 2 [] rfl rfl (by decide) rfl rfl

/-- Every duplicate appended by `processPane` targets a render-target
image, and the accumulated pointer list only changes via `updatePointer`. -/
theorem processPane_sent_image
    (w : PassthroughWorld) (event : PointerInput) (acc acc' : SentState)
    (pane : Entity × NodeGraph)
    (h : processPane w event acc pane = some acc')
    (hok : ∀ e ∈ acc.sent, ∃ hdl, e.location.target = NormalizedRenderTarget.image hdl) :
    ∀ e ∈ acc'.sent, ∃ hdl, e.location.target = NormalizedRenderTarget.image hdl := by
  unfold processPane at h
  cases hf : (iterDescendants w.children w.fuel pane.1).find?
      (fun e => w.content.contains e) with
  | none => rw [hf] at h; cases h
  | some c =>
    simp only [hf] at h
    cases hc : w.children c with
    | nil => simp only [hc] at h; cases h
    | cons img tl =>
      simp only [hc] at h
      cases hq : w.nodeQuery img with
      | none =>
        simp only [hq, Option.some.injEq] at h
        subst h
        exact hok
      | some trip =>
        obtain ⟨cn, gt, ui⟩ := trip
        simp only [hq, Option.some.injEq] at h
        subst h
        intro e he
        rcases List.mem_append.1 he with hmem | hmem
        · exact hok e hmem
        · rcases List.mem_singleton.1 hmem with rfl
          exact ⟨ui.texture, rfl⟩

/-- The image-target invariant is preserved across a whole pane list. -/
theorem foldPanes_sent_image
    (w : PassthroughWorld) (event : PointerInput) :
    ∀ (panes : List (Entity × NodeGraph)) (acc acc' : SentState),
      panes.foldlM (processPane w event) acc = some acc' →
      (∀ e ∈ acc.sent, ∃ hdl, e.location.target = NormalizedRenderTarget.image hdl) →
      ∀ e ∈ acc'.sent, ∃ hdl, e.location.target = NormalizedRenderTarget.image hdl := by
  intro panes
  induction panes with
  | nil =>
    intro acc acc' h hok
    cases h
    exact hok
  | cons p ps ih =>
    intro acc acc' h hok
    rw [List.foldlM_cons] at h
    cases hp : processPane w event acc p with
    | none => rw [hp] at h; cases h
    | some acc1 =>
      rw [hp] at h
      exact ih acc1 acc' h (processPane_sent_image w event acc acc1 p hp hok)

/-- The image-target invariant is preserved across a whole event list. -/
theorem foldEvents_sent_image
    (w : PassthroughWorld) :
    ∀ (events : List PointerInput) (acc acc' : SentState),
      events.foldlM (processEvent w) acc = some acc' →
      (∀ e ∈ acc.sent, ∃ hdl, e.location.target = NormalizedRenderTarget.image hdl) →
      ∀ e ∈ acc'.sent, ∃ hdl, e.location.target = NormalizedRenderTarget.image hdl := by
  intro events
  induction events with
  | nil =>
    intro acc acc' h hok
    cases h
    exact hok
  | cons ev evs ih =>
    intro acc acc' h hok
    rw [List.foldlM_cons] at h
    cases hp : processEvent w acc ev with
    | none => rw [hp] at h; cases h
    | some acc1 =>
      rw [hp] at h
      refine ih acc1 acc' h ?_
      unfold processEvent at hp
      by_cases hw : ev.location.target.isWindow = true
      · rw [if_pos hw] at hp
        exact foldPanes_sent_image w ev w.viewports acc acc1 hp hok
      · rw [if_neg hw] at hp
        cases hp
        exact hok

/-- Events that do not target a window are skipped wholesale: processing
any list of them sends nothing and leaves every pointer untouched. -/
theorem passthrough_nonwindow_noop
    (w : PassthroughWorld) (events : List PointerInput)
    (h : ∀ e ∈ events, e.location.target.isWindow = false) :
    render_target_picking_passthrough w events =
      some { sent := [], pointers := w.pointers } := by
  unfold render_target_picking_passthrough
  generalize { sent := [], pointers := w.pointers : SentState } = acc
  induction events generalizing acc with
  | nil => rfl
  | cons ev evs ih =>
    rw [List.foldlM_cons]
    have hw : ev.location.target.isWindow = false := h ev (List.mem_cons_self ..)
    have hstep : processEvent w acc ev = some acc := by
      unfold processEvent
      rw [hw]
      rfl
    rw [hstep]
    exact ih (fun e he => h e (List.mem_cons_of_mem _ he)) acc

/-- Claim C8: the passthrough processes only window-targeted events — an
event already targeting a render-target image is skipped with no effect —
and every duplicate it re-sends targets an image; hence feeding the
re-sent events back through the passthrough sends nothing and changes no
pointer, so no feedback loop of re-emitted events can occur. -/
theorem passthrough_no_feedback_loop
    (w : PassthroughWorld) (events : List PointerInput) (res : SentState)
    (hrun : render_target_picking_passthrough w events = some res) :
    (∀ (w' : PassthroughWorld) (acc : SentState) (e : PointerInput) (hdl : Handle),
      e.location.target = NormalizedRenderTarget.image hdl →
      processEvent w' acc e = some acc) ∧
    (∀ e ∈ res.sent, ∃ hdl, e.location.target = NormalizedRenderTarget.image hdl) ∧
    ∀ w' : PassthroughWorld,
      render_target_picking_passthrough w' res.sent =
        some { sent := [], pointers := w'.pointers } := by
  have hsent : ∀ e ∈ res.sent, ∃ hdl,
      e.location.target = NormalizedRenderTarget.image hdl :=
    foldEvents_sent_image w events _ res hrun (by intro e he; cases he)
  refine ⟨?_, hsent, ?_⟩
  · intro w' acc e hdl htgt
    unfold processEvent
    rw [htgt]
    rfl
  · intro w'
    refine passthrough_nonwindow_noop w' res.sent ?_
    intro e he
    obtain ⟨hdl, htgt⟩ := hsent e he
    rw [htgt]
    rfl

/-- Concrete instance of C8: the run of the passthrough over the sample
event with the inactive sample pane succeeds, every event it sent (none)
targets an image, and re-processing what was sent is a no-op. -/
theorem passthrough_no_feedback_loop_witness :
    (∀ (w' : PassthroughWorld) (acc : SentState) (e : PointerInput) (hdl : Handle),
      e.location.target = NormalizedRenderTarget.image hdl →
      processEvent w' acc e = some acc) ∧
    (∀ e ∈ (SentState.mk [] [(5, none)]).sent, ∃ hdl,
      e.location.target = NormalizedRenderTarget.image hdl) ∧
    ∀ w' : PassthroughWorld,
      render_target_picking_passthrough w' (SentState.mk [] [(5, none)]).sent =
        some { sent := [], pointers := w'.pointers } :=
  passthrough_no_feedback_loop sampleWInactive [sampleEvent] ⟨[], [(5, none)]⟩
    (by rw [passthrough_single sampleWInactive sampleEvent (0, ⟨10⟩) rfl rfl,
          processPane_inactive sampleWInactive sampleEvent _ (0, ⟨10⟩) 1 2 []
            (by decide) rfl rfl]
        rfl)

/-- A world whose single node-graph pane root has no `PaneContentNode`
descendant: the `unwrap` in the passthrough's content lookup panics. -/
def brokenW : PassthroughWorld :=
  { viewports := [(0, ⟨10⟩)]
    content := []
    children := fun _ => []
    fuel := 10
    nodeQuery := fun _ => none
    pointers := [] }

/-- Counterexample to C4 as stated: a window-targeted pointer event and
an entity carrying a `NodeGraph` component for which the passthrough's
lookups do not succeed — the routine panics (`none`). -/
theorem passthrough_lookup_can_fail :
    brokenW.viewports ≠ [] ∧
    sampleEvent.location.target.isWindow = true ∧
    render_target_picking_passthrough brokenW [sampleEvent] = none :=
  ⟨by decide, rfl, rfl⟩

/-- Under the pane invariant, a single pane step never panics. -/
theorem processPane_total
    (w : PassthroughWorld) (event : PointerInput) (acc : SentState)
    (pane : Entity × NodeGraph)
    (h : ∃ c img rest,
      (iterDescendants w.children w.fuel pane.1).find?
        (fun e => w.content.contains e) = some c ∧
      w.children c = img :: rest) :
    ∃ acc', processPane w event acc pane = some acc' := by
  obtain ⟨c, img, rest, hf, hc⟩ := h
  cases hq : w.nodeQuery img with
  | none => exact ⟨acc, processPane_inactive w event acc pane c img rest hf hc hq⟩
  | some trip =>
    obtain ⟨cn, gt, ui⟩ := trip
    exact ⟨_, processPane_active w event acc pane c img rest cn gt ui hf hc hq⟩

/-- Under the pane invariant, the whole pane loop never panics. -/
theorem foldPanes_total
    (w : PassthroughWorld) (event : PointerInput)
    (panes : List (Entity × NodeGraph))
    (hinv : ∀ pane ∈ panes, ∃ c img rest,
      (iterDescendants w.children w.fuel pane.1).find?
        (fun e => w.content.contains e) = some c ∧
      w.children c = img :: rest) :
    ∀ acc, ∃ acc', panes.foldlM (processPane w event) acc = some acc' := by
  induction panes with
  | nil => exact fun acc => ⟨acc, rfl⟩
  | cons p ps ih =>
    intro acc
    obtain ⟨acc1, h1⟩ := processPane_total w event acc p (hinv p (List.mem_cons_self ..))
    obtain ⟨acc', h'⟩ := ih (fun q hq => hinv q (List.mem_cons_of_mem _ hq)) acc1
    refine ⟨acc', ?_⟩
    rw [List.foldlM_cons, h1]
    exact h'

/-- Claim C4 (amended): the passthrough's lookups succeed — and the
routine never panics, on any event list — provided every entity carrying
a `NodeGraph` component has a `PaneContentNode` descendant whose child
list is nonempty, which is exactly the structure `on_pane_creation`
establishes; on a world violating that invariant the `unwrap`s panic. -/
theorem passthrough_total_under_pane_invariant
    (w : PassthroughWorld) (events : List PointerInput)
    (hinv : ∀ pane ∈ w.viewports, ∃ c img rest,
      (iterDescendants w.children w.fuel pane.1).find?
        (fun e => w.content.contains e) = some c ∧
      w.children c = img :: rest) :
    ∃ res, render_target_picking_passthrough w events = some res := by
  unfold render_target_picking_passthrough
  generalize { sent := [], pointers := w.pointers : SentState } = acc
  induction events generalizing acc with
  | nil => exact ⟨acc, rfl⟩
  | cons ev evs ih =>
    by_cases hw : ev.location.target.isWindow = true
    · obtain ⟨acc1, h1⟩ := foldPanes_total w ev w.viewports hinv acc
      obtain ⟨res, hres⟩ := ih acc1
      refine ⟨res, ?_⟩
      rw [List.foldlM_cons]
      have hstep : processEvent w acc ev = some acc1 := by
        unfold processEvent
        rw [if_pos hw]
        exact h1
      rw [hstep]
      exact hres
    · obtain ⟨res, hres⟩ := ih acc
      refine ⟨res, ?_⟩
      rw [List.foldlM_cons]
      have hstep : processEvent w acc ev = some acc := by
        unfold processEvent
        rw [if_neg hw]
      rw [hstep]
      exact hres

/-- Concrete instance of the amended C4: the sample world satisfies the
pane invariant, so processing the sample event does not panic. -/
theorem passthrough_total_under_pane_invariant_witness :
    ∃ res, render_target_picking_passthrough sampleW [sampleEvent] = some res :=
  passthrough_total_under_pane_invariant sampleW [sampleEvent]
    (by
      intro pane hp
      rcases List.mem_singleton.1 hp with rfl
      exact ⟨1, 2, [], by decide, rfl⟩)

/-- When the pane's content node changed, `resizePane` overrides the
editor camera's viewport with the content rectangle and resizes the
render-target image, touching nothing else. -/
theorem resizePane_changed
    (w : ResizeWorld)
    (st : (Entity → Option (Camera × EditorCamera2d)) × (Handle → Option Image))
    (pane : Entity × NodeGraph) (c : Entity)
    (cn : ComputedNode) (gt : GlobalTransform) (cam : Camera)
    (ec : EditorCamera2d) (hdl : Handle) (img : Image)
    (hfind : (iterDescendants w.children w.fuel pane.1).find?
        (fun e => w.content.contains e) = some c)
    (hpos : w.posQuery c = some (cn, gt))
    (hcam : st.1 pane.2.camera = some (cam, ec))
    (himg : cam.target.as_image = some hdl)
    (hasset : st.2 hdl = some img) :
    ∃ st', resizePane w st pane = some st' ∧
      st'.1 pane.2.camera =
        some (cam,
          { enabled := ec.enabled
            viewport_override := some (Rect.from_center_size gt.translation cn.size) }) ∧
      st'.2 hdl = some (img.resize
        { width := max 1 (ratAsU32 cn.size.x)
          height := max 1 (ratAsU32 cn.size.y)
          depth_or_array_layers := 1 }) ∧
      (∀ e, e ≠ pane.2.camera → st'.1 e = st.1 e) ∧
      (∀ h, h ≠ hdl → st'.2 h = st.2 h) := by
  have hrun : resizePane w st pane = some
      (fun e =>
        if e = pane.2.camera then
          some (cam,
            { enabled := ec.enabled
              viewport_override := some (Rect.from_center_size gt.translation cn.size) })
        else st.1 e,
       fun h =>
        if h = hdl then
          some (img.resize
            { width := max 1 (ratAsU32 cn.size.x)
              height := max 1 (ratAsU32 cn.size.y)
              depth_or_array_layers := 1 })
        else st.2 h) := by
    simp only [resizePane, hfind, hpos, hcam, himg, hasset]
  refine ⟨_, hrun, ?_, ?_, ?_, ?_⟩
  · simp
  · simp
  · intro e he
    simp [he]
  · intro h hh
    simp [hh]

/-- When the pane's content node did not change, `resizePane` leaves the
camera and image stores untouched. -/
theorem resizePane_unchanged
    (w : ResizeWorld)
    (st : (Entity → Option (Camera × EditorCamera2d)) × (Handle → Option Image))
    (pane : Entity × NodeGraph) (c : Entity)
    (hfind : (iterDescendants w.children w.fuel pane.1).find?
        (fun e => w.content.contains e) = some c)
    (hpos : w.posQuery c = none) :
    resizePane w st pane = some st := by
  simp only [resizePane, hfind, hpos]

/-- The resize system over a single pane is one `resizePane` step. -/
theorem update_render_target_size_single
    (w : ResizeWorld) (pane : Entity × NodeGraph)
    (hq : w.query = [pane]) :
    update_render_target_size w = resizePane w (w.cameras, w.images) pane := by
  unfold update_render_target_size
  rw [hq, List.foldlM_cons]
  cases resizePane w (w.cameras, w.images) pane <;> rfl

/-- For sizes in the representable range, the saturating cast is the
floor. -/
theorem ratAsU32_eq_floor (q : ℚ) (h0 : 0 ≤ q) (h1 : q ≤ 2 ^ 32 - 1) :
    ratAsU32 q = Int.toNat ⌊q⌋ := by
  unfold ratAsU32
  by_cases hq : q ≤ 0
  · have h : q = 0 := le_antisymm hq h0
    subst h
    simp
  · rw [if_neg hq]
    have hfl : ⌊q⌋ ≤ 2 ^ 32 - 1 := by
      calc ⌊q⌋ ≤ ⌊(2 ^ 32 - 1 : ℚ)⌋ := Int.floor_le_floor h1
        _ = 2 ^ 32 - 1 := by norm_num
    have ht : Int.toNat ⌊q⌋ ≤ 2 ^ 32 - 1 := by omega
    exact min_eq_right ht

/-- Claim C2 (amended): for a node-graph pane whose content node changed
during layout, `update_render_target_size` resizes the render-target
image to width `max 1 (size.x as u32)` and height `max 1 (size.y as
u32)` — the content size truncated to an integer but clamped below by 1 —
and overrides the editor camera's viewport with the rectangle centred at
the content node's global position with the content node's size; every
other camera and image, and every pane whose content node did not change,
is left untouched. -/
theorem update_render_target_size_changed
    (w : ResizeWorld) (pane : Entity × NodeGraph) (c : Entity)
    (cn : ComputedNode) (gt : GlobalTransform) (cam : Camera)
    (ec : EditorCamera2d) (hdl : Handle) (img : Image)
    (hq : w.query = [pane])
    (hfind : (iterDescendants w.children w.fuel pane.1).find?
        (fun e => w.content.contains e) = some c)
    (hpos : w.posQuery c = some (cn, gt))
    (hcam : w.cameras pane.2.camera = some (cam, ec))
    (himg : cam.target.as_image = some hdl)
    (hasset : w.images hdl = some img) :
    (∃ st', update_render_target_size w = some st' ∧
      st'.1 pane.2.camera =
        some (cam,
          { enabled := ec.enabled
            viewport_override := some (Rect.from_center_size gt.translation cn.size) }) ∧
      st'.2 hdl = some (img.resize
        { width := max 1 (ratAsU32 cn.size.x)
          height := max 1 (ratAsU32 cn.size.y)
          depth_or_array_layers := 1 }) ∧
      (∀ e, e ≠ pane.2.camera → st'.1 e = w.cameras e) ∧
      (∀ h, h ≠ hdl → st'.2 h = w.images h)) ∧
    ∀ (w' : ResizeWorld) (pane' : Entity × NodeGraph) (c' : Entity),
      w'.query = [pane'] →
      (iterDescendants w'.children w'.fuel pane'.1).find?
        (fun e => w'.content.contains e) = some c' →
      w'.posQuery c' = none →
      update_render_target_size w' = some (w'.cameras, w'.images) := by
  constructor
  · obtain ⟨st', hrun, hc, hi, hrest⟩ :=
      resizePane_changed w (w.cameras, w.images) pane c cn gt cam ec hdl img
        hfind hpos hcam himg hasset
    exact ⟨st', by rw [update_render_target_size_single w pane hq]; exact hrun,
      hc, hi, hrest⟩
  · intro w' pane' c' hq' hfind' hpos'
    rw [update_render_target_size_single w' pane' hq']
    exact resizePane_unchanged w' (w'.cameras, w'.images) pane' c' hfind' hpos'

/-- A resize world with one pane (root `0`, camera `10`), content node
`1` of size 4x3 centred at (2, 2), and render-target image handle `7`. -/
def resizeW : ResizeWorld :=
  { query := [(0, ⟨10⟩)]
    content := [1]
    children := fun e => if e = 0 then [1] else []
    fuel := 5
    posQuery := fun e => if e = 1 then some (⟨⟨4, 3⟩⟩, ⟨⟨2, 2⟩⟩) else none
    cameras := fun e =>
      if e = 10 then some (⟨RenderTarget.image 7⟩, ⟨false, none⟩) else none
    images := fun h => if h = 7 then some Image.default else none }

/-- Concrete instance of the amended C2 on the 4x3 content node. -/
theorem update_render_target_size_changed_witness :
    (∃ st', update_render_target_size resizeW = some st' ∧
      st'.1 10 =
        some (⟨RenderTarget.image 7⟩,
          { enabled := false
            viewport_override :=
              some (Rect.from_center_size (⟨2, 2⟩ : Vec2) ⟨4, 3⟩) }) ∧
      st'.2 7 = some (Image.default.resize
        { width := max 1 (ratAsU32 4)
          height := max 1 (ratAsU32 3)
          depth_or_array_layers := 1 }) ∧
      (∀ e, e ≠ 10 → st'.1 e = resizeW.cameras e) ∧
      (∀ h, h ≠ 7 → st'.2 h = resizeW.images h)) ∧
    ∀ (w' : ResizeWorld) (pane' : Entity × NodeGraph) (c' : Entity),
      w'.query = [pane'] →
      (iterDescendants w'.children w'.fuel pane'.1).find?
        (fun e => w'.content.contains e) = some c' →
      w'.posQuery c' = none →
      update_render_target_size w' = some (w'.cameras, w'.images) :=
  update_render_target_size_changed resizeW (0, ⟨10⟩) 1 ⟨⟨4, 3⟩⟩ ⟨⟨2, 2⟩⟩
    ⟨RenderTarget.image 7⟩ ⟨false, none⟩ 7 Image.default
    rfl (by decide) rfl rfl rfl rfl

/-- A resize world whose content node is half a pixel wide and tall. -/
def resizeCexW : ResizeWorld :=
  { query := [(0, ⟨10⟩)]
    content := [1]
    children := fun e => if e = 0 then [1] else []
    fuel := 5
    posQuery := fun e =>
      if e = 1 then some (⟨⟨1 / 2, 1 / 2⟩⟩, ⟨⟨0, 0⟩⟩) else none
    cameras := fun e =>
      if e = 10 then some (⟨RenderTarget.image 7⟩, ⟨false, none⟩) else none
    images := fun h => if h = 7 then some Image.default else none }

/-- Counterexample to C2 as stated: a content node of width and height
1/2 truncates to 0, yet the resized image has extent 1x1, not 0x0 — the
resize clamps each dimension below by 1 instead of using the bare
truncation. -/
theorem resize_truncation_counterexample :
    ratAsU32 ((1 : ℚ) / 2) = 0 ∧
    (update_render_target_size resizeCexW).map
      (fun st => (st.2 7).map (fun i => i.size.width)) = some (some 1) := by
  have hflr : ⌊(1 : ℚ) / 2⌋ = 0 := by
    rw [Int.floor_eq_zero_iff]
    constructor <;> norm_num
  have hhalf : ratAsU32 ((1 : ℚ) / 2) = 0 := by
    unfold ratAsU32
    rw [if_neg (by norm_num), hflr]
    rfl
  have hhalf2 : ratAsU32 ((2 : ℚ)⁻¹) = 0 := by
    rw [← one_div]
    exact hhalf
  refine ⟨hhalf, ?_⟩
  obtain ⟨st', hrun, hc, hi, _, _⟩ :=
    resizePane_changed resizeCexW (resizeCexW.cameras, resizeCexW.images)
      (0, ⟨10⟩) 1 ⟨⟨1 / 2, 1 / 2⟩⟩ ⟨⟨0, 0⟩⟩ ⟨RenderTarget.image 7⟩
      ⟨false, none⟩ 7 Image.default (by decide) rfl rfl rfl rfl
  rw [update_render_target_size_single resizeCexW (0, ⟨10⟩) rfl, hrun]
  simp [hi, hhalf, hhalf2, Image.resize]

/-- Claim C9: `update_render_target_size` never produces a zero-sized
texture: for a pane it resizes, the resulting extent is
`max 1 ⌊width⌋ × max 1 ⌊height⌋`, hence at least 1 in each dimension even
when layout assigns a dimension smaller than one pixel. -/
theorem update_render_target_size_min_one
    (w : ResizeWorld) (pane : Entity × NodeGraph) (c : Entity)
    (cn : ComputedNode) (gt : GlobalTransform) (cam : Camera)
    (ec : EditorCamera2d) (hdl : Handle) (img : Image)
    (hq : w.query = [pane])
    (hfind : (iterDescendants w.children w.fuel pane.1).find?
        (fun e => w.content.contains e) = some c)
    (hpos : w.posQuery c = some (cn, gt))
    (hcam : w.cameras pane.2.camera = some (cam, ec))
    (himg : cam.target.as_image = some hdl)
    (hasset : w.images hdl = some img)
    (hx0 : 0 ≤ cn.size.x) (hx1 : cn.size.x ≤ 2 ^ 32 - 1)
    (hy0 : 0 ≤ cn.size.y) (hy1 : cn.size.y ≤ 2 ^ 32 - 1) :
    ∃ st' img', update_render_target_size w = some st' ∧
      st'.2 hdl = some img' ∧
      img'.size.width = max 1 (Int.toNat ⌊cn.size.x⌋) ∧
      img'.size.height = max 1 (Int.toNat ⌊cn.size.y⌋) ∧
      1 ≤ img'.size.width ∧ 1 ≤ img'.size.height := by
  obtain ⟨st', hrun, hc, hi, _, _⟩ :=
    resizePane_changed w (w.cameras, w.images) pane c cn gt cam ec hdl img
      hfind hpos hcam himg hasset
  refine ⟨st', _, by rw [update_render_target_size_single w pane hq]; exact hrun,
    hi, ?_, ?_, ?_, ?_⟩
  · simp [Image.resize, ratAsU32_eq_floor cn.size.x hx0 hx1]
  · simp [Image.resize, ratAsU32_eq_floor cn.size.y hy0 hy1]
  · simp [Image.resize]
  · simp [Image.resize]

/-- Concrete instance of C9: the 4x3 content node yields a 4x3 texture,
at least 1 in each dimension. -/
theorem update_render_target_size_min_one_witness :
    ∃ st' img', update_render_target_size resizeW = some st' ∧
      st'.2 7 = some img' ∧
      img'.size.width = max 1 (Int.toNat ⌊(4 : ℚ)⌋) ∧
      img'.size.height = max 1 (Int.toNat ⌊(3 : ℚ)⌋) ∧
      1 ≤ img'.size.width ∧ 1 ≤ img'.size.height :=
  update_render_target_size_min_one resizeW (0, ⟨10⟩) 1 ⟨⟨4, 3⟩⟩ ⟨⟨2, 2⟩⟩
    ⟨RenderTarget.image 7⟩ ⟨false, none⟩ 7 Image.default
    rfl (by decide) rfl rfl rfl rfl
    (by norm_num) (by norm_num) (by norm_num) (by norm_num)

/-- The full effect of `on_pane_creation` when its lookups succeed. -/
theorem on_pane_creation_run
    (w : PaneWorld) (pane_root content_node : Entity) (ng : NodeGraph)
    (hfind : (iterDescendants w.children w.fuel pane_root).find?
        (fun e => w.content.contains e) = some content_node)
    (hng : w.nodeGraphs pane_root = some ng) :
    on_pane_creation w pane_root = some { w with
      nextEntity := w.nextEntity + 2
      nextHandle := w.nextHandle + 1
      imageAssets := fun h =>
        if h = w.nextHandle then
          some { Image.default with
            render_attachment := true, format := .bgra8UnormSrgb }
        else w.imageAssets h
      uiImages := fun e =>
        if e = w.nextEntity then some { texture := w.nextHandle } else w.uiImages e
      children := fun e =>
        if e = content_node then w.children e ++ [w.nextEntity] else w.children e
      cameras := fun e =>
        if e = w.nextEntity + 1 then
          some ({ target := .image w.nextHandle },
                { enabled := false, viewport_override := none })
        else w.cameras e
      observers := w.observers ++
        [{ node := w.nextEntity, kind := .overInsertActive },
         { node := w.nextEntity, kind := .outRemoveActive },
         { node := w.nextEntity, kind := .moveEnableCamera (w.nextEntity + 1) },
         { node := w.nextEntity, kind := .outDisableCamera (w.nextEntity + 1) }]
      nodeGraphs := fun e =>
        if e = pane_root then some { camera := w.nextEntity + 1 }
        else w.nodeGraphs e } := by
  simp only [on_pane_creation, hfind, hng]

/-- An entity holds no components of the pane lifecycle. -/
def despawned (w : PaneWorld) (x : Entity) : Prop :=
  w.nodeGraphs x = none ∧ w.uiImages x = none ∧ w.cameras x = none

/-- Despawning more entities never resurrects components. -/
theorem despawnList_preserves_despawned
    (es : List Entity) (w : PaneWorld) (x : Entity)
    (h : despawned w x) : despawned (es.foldl despawnEntity w) x := by
  induction es generalizing w with
  | nil => exact h
  | cons e rest ih =>
    rw [List.foldl_cons]
    apply ih
    obtain ⟨h1, h2, h3⟩ := h
    by_cases hxe : x = e <;>
      exact ⟨by simp [despawnEntity, hxe, h1], by simp [despawnEntity, hxe, h2],
        by simp [despawnEntity, hxe, h3]⟩

/-- Every entity in a despawn list ends up fully despawned. -/
theorem despawnList_despawned
    (es : List Entity) (w : PaneWorld) (x : Entity)
    (hx : x ∈ es) : despawned (es.foldl despawnEntity w) x := by
  induction es generalizing w with
  | nil => cases hx
  | cons e rest ih =>
    rw [List.foldl_cons]
    rcases List.mem_cons.1 hx with rfl | hx'
    · exact despawnList_preserves_despawned rest (despawnEntity w x) x
        ⟨by simp [despawnEntity], by simp [despawnEntity], by simp [despawnEntity]⟩
    · exact ih (despawnEntity w e) hx'

/-- Models `despawn_recursive` despawns the entity and all its descendants. -/
theorem despawn_recursive_despawned
    (w : PaneWorld) (e x : Entity)
    (hx : x ∈ e :: iterDescendants w.children w.fuel e) :
    despawned (despawn_recursive w e) x :=
  despawnList_despawned _ w x hx

/-- Claim C3: adding a `NodeGraph` component triggers `on_pane_creation`,
which spawns exactly one UI image node as a new child of the pane's
content node and exactly one 2D camera whose render target is that
image, and records the camera entity in the `NodeGraph` component;
removing the component triggers the on-remove observer, which despawns
the recorded camera entity and its descendants. -/
theorem pane_lifecycle_add_remove
    (w : PaneWorld) (pane_root content_node : Entity) (ng : NodeGraph)
    (hfind : (iterDescendants w.children w.fuel pane_root).find?
        (fun e => w.content.contains e) = some content_node)
    (hng : w.nodeGraphs pane_root = some ng) :
    ∃ w', on_pane_creation w pane_root = some w' ∧
      w'.uiImages w.nextEntity = some { texture := w.nextHandle } ∧
      w'.children content_node = w.children content_node ++ [w.nextEntity] ∧
      (∀ e, e ≠ content_node → w'.children e = w.children e) ∧
      (∀ e, e ≠ w.nextEntity → w'.uiImages e = w.uiImages e) ∧
      w'.cameras (w.nextEntity + 1) =
        some ({ target := RenderTarget.image w.nextHandle },
              { enabled := false, viewport_override := none }) ∧
      (∀ e, e ≠ w.nextEntity + 1 → w'.cameras e = w.cameras e) ∧
      w'.nodeGraphs pane_root = some { camera := w.nextEntity + 1 } ∧
      w'.nextEntity = w.nextEntity + 2 ∧
      on_node_graph_remove w' pane_root =
        some (despawn_recursive w' (w.nextEntity + 1)) ∧
      ∀ x ∈ (w.nextEntity + 1) ::
          iterDescendants w'.children w'.fuel (w.nextEntity + 1),
        despawned (despawn_recursive w' (w.nextEntity + 1)) x := by
  refine ⟨_, on_pane_creation_run w pane_root content_node ng hfind hng,
    by simp, by simp, ?_, ?_, by simp, ?_, by simp, rfl, ?_, ?_⟩
  · intro e he
    simp [he]
  · intro e he
    simp [he]
  · intro e he
    simp [he]
  · simp [on_node_graph_remove]
  · intro x hx
    exact despawn_recursive_despawned _ _ x hx

/-- A pane world about to create its pane: root `0` with a default
`NodeGraph`, content node `1`, next entity `2`, next handle `0`. -/
def paneW : PaneWorld :=
  { nextEntity := 2
    nextHandle := 0
    children := fun e => if e = 0 then [1] else []
    fuel := 5
    content := [1]
    nodeGraphs := fun e => if e = 0 then some NodeGraph.default else none
    uiImages := fun _ => none
    cameras := fun _ => none
    imageAssets := fun _ => none
    observers := []
    active := fun _ => false }

/-- Concrete instance of C3 on the sample pane world: image node `2` is
spawned under content node `1`, camera `3` renders to image handle `0`
and is recorded, and removal despawns camera `3`. -/
theorem pane_lifecycle_add_remove_witness :
    ∃ w', on_pane_creation paneW 0 = some w' ∧
      w'.uiImages 2 = some { texture := 0 } ∧
      w'.children 1 = paneW.children 1 ++ [2] ∧
      (∀ e, e ≠ 1 → w'.children e = paneW.children e) ∧
      (∀ e, e ≠ 2 → w'.uiImages e = paneW.uiImages e) ∧
      w'.cameras 3 =
        some ({ target := RenderTarget.image 0 },
              { enabled := false, viewport_override := none }) ∧
      (∀ e, e ≠ 3 → w'.cameras e = paneW.cameras e) ∧
      w'.nodeGraphs 0 = some { camera := 3 } ∧
      w'.nextEntity = 4 ∧
      on_node_graph_remove w' 0 = some (despawn_recursive w' 3) ∧
      ∀ x ∈ 3 :: iterDescendants w'.children w'.fuel 3,
        despawned (despawn_recursive w' 3) x :=
  pane_lifecycle_add_remove paneW 0 1 NodeGraph.default (by decide) rfl

/-- Claim C5: the offscreen texture created by `on_pane_creation` is both
the spawned camera's render target and the texture of the spawned UI
image node — one shared handle — and the passthrough's retargeting to
`ui_image.texture` produces exactly that handle as the event target. -/
theorem pane_render_target_shared_handle
    (w : PaneWorld) (pane_root content_node : Entity) (ng : NodeGraph)
    (hfind : (iterDescendants w.children w.fuel pane_root).find?
        (fun e => w.content.contains e) = some content_node)
    (hng : w.nodeGraphs pane_root = some ng) :
    ∃ w' cam ec ui, on_pane_creation w pane_root = some w' ∧
      w'.cameras (w.nextEntity + 1) = some (cam, ec) ∧
      w'.uiImages w.nextEntity = some ui ∧
      cam.target = RenderTarget.image ui.texture ∧
      cam.target.as_image = some ui.texture ∧
      ∀ (event : PointerInput) (cn : ComputedNode) (gt : GlobalTransform),
        (remapLocation event cn gt ui).target =
          NormalizedRenderTarget.image ui.texture := by
  refine ⟨_, { target := RenderTarget.image w.nextHandle },
    { enabled := false, viewport_override := none },
    { texture := w.nextHandle },
    on_pane_creation_run w pane_root content_node ng hfind hng,
    by simp, by simp, rfl, rfl, fun _ _ _ => rfl⟩

/-- Concrete instance of C5 on the sample pane world: camera `3` targets
image handle `0`, the same handle displayed by UI image node `2`. -/
theorem pane_render_target_shared_handle_witness :
    ∃ w' cam ec ui, on_pane_creation paneW 0 = some w' ∧
      w'.cameras 3 = some (cam, ec) ∧
      w'.uiImages 2 = some ui ∧
      cam.target = RenderTarget.image ui.texture ∧
      cam.target.as_image = some ui.texture ∧
      ∀ (event : PointerInput) (cn : ComputedNode) (gt : GlobalTransform),
        (remapLocation event cn gt ui).target =
          NormalizedRenderTarget.image ui.texture :=
  pane_render_target_shared_handle paneW 0 1 NodeGraph.default (by decide) rfl

/-- The entity a pointer event is delivered to. -/
def EntityPointerEvent.node : EntityPointerEvent → Entity
  | .over n => n
  | .out n => n
  | .move n => n

/-- An observer watching a different entity ignores the event. -/
theorem fireObserver_other (ev : EntityPointerEvent) (st : ObserverState)
    (o : Observer) (h : ev.node ≠ o.node) :
    fireObserver ev st o = some st := by
  obtain ⟨n0, k⟩ := o
  cases ev <;> cases k <;>
    simp_all [fireObserver, EntityPointerEvent.node]

/-- A whole list of observers watching other entities ignores the event. -/
theorem foldFire_no_match (ev : EntityPointerEvent) :
    ∀ (obsList : List Observer) (st : ObserverState),
      (∀ o ∈ obsList, ev.node ≠ o.node) →
      obsList.foldlM (fireObserver ev) st = some st := by
  intro obsList
  induction obsList with
  | nil => intro st _; rfl
  | cons o os ih =>
    intro st h
    rw [List.foldlM_cons, fireObserver_other ev st o (h o (List.mem_cons_self ..))]
    exact ih st (fun o' ho' => h o' (List.mem_cons_of_mem _ ho'))

/-- A `Pointer<Move>` on the pane's image node enables exactly the
pane's camera, when no pre-existing observer watches that node. -/
theorem stepEvent_move_enables
    (obsPre : List Observer) (image_id camera_id : Entity)
    (st : ObserverState) (cam : Camera) (ec : EditorCamera2d)
    (hnodes : ∀ o ∈ obsPre, image_id ≠ o.node)
    (hcam : st.cameras camera_id = some (cam, ec)) :
    stepEvent (obsPre ++
      [{ node := image_id, kind := .overInsertActive },
       { node := image_id, kind := .outRemoveActive },
       { node := image_id, kind := .moveEnableCamera camera_id },
       { node := image_id, kind := .outDisableCamera camera_id }])
      st (.move image_id) =
      some { st with cameras := fun x =>
        if x = camera_id then some (cam, { ec with enabled := true })
        else st.cameras x } := by
  unfold stepEvent
  rw [List.foldlM_append,
    foldFire_no_match (EntityPointerEvent.move image_id) obsPre st hnodes]
  simp [fireObserver, hcam]

/-- A `Pointer<Out>` on the pane's image node removes the `Active`
marker and disables exactly the pane's camera. -/
theorem stepEvent_out_disables
    (obsPre : List Observer) (image_id camera_id : Entity)
    (st : ObserverState) (cam : Camera) (ec : EditorCamera2d)
    (hnodes : ∀ o ∈ obsPre, image_id ≠ o.node)
    (hcam : st.cameras camera_id = some (cam, ec)) :
    stepEvent (obsPre ++
      [{ node := image_id, kind := .overInsertActive },
       { node := image_id, kind := .outRemoveActive },
       { node := image_id, kind := .moveEnableCamera camera_id },
       { node := image_id, kind := .outDisableCamera camera_id }])
      st (.out image_id) =
      some { active := fun x => if x = image_id then false else st.active x
             cameras := fun x =>
               if x = camera_id then some (cam, { ec with enabled := false })
               else st.cameras x } := by
  unfold stepEvent
  rw [List.foldlM_append,
    foldFire_no_match (EntityPointerEvent.out image_id) obsPre st hnodes]
  simp [fireObserver, hcam]

/-- Case analysis of an observer's effect on one camera slot: it is
unchanged, enabled by a matching `moveEnableCamera`, or disabled. -/
theorem fireObserver_cameras_cases
    (ev : EntityPointerEvent) (st st' : ObserverState) (o : Observer)
    (hfire : fireObserver ev st o = some st') (x : Entity) :
    st'.cameras x = st.cameras x ∨
    (∃ (c : Camera) (ec : EditorCamera2d),
      ev = EntityPointerEvent.move o.node ∧
      o.kind = ObserverKind.moveEnableCamera x ∧
      st'.cameras x = some (c, { ec with enabled := true })) ∨
    (∃ (c : Camera) (ec : EditorCamera2d),
      st'.cameras x = some (c, { ec with enabled := false })) := by
  obtain ⟨n0, k⟩ := o
  cases ev with
  | over n =>
    cases k with
    | overInsertActive =>
      simp only [fireObserver] at hfire
      by_cases hn : n = n0
      · rw [if_pos hn] at hfire
        cases hfire
        left; rfl
      · rw [if_neg hn] at hfire
        cases hfire
        left; rfl
    | outRemoveActive => cases hfire; left; rfl
    | moveEnableCamera cid => cases hfire; left; rfl
    | outDisableCamera cid => cases hfire; left; rfl
  | move n =>
    cases k with
    | overInsertActive => cases hfire; left; rfl
    | outRemoveActive => cases hfire; left; rfl
    | outDisableCamera cid => cases hfire; left; rfl
    | moveEnableCamera cid =>
      simp only [fireObserver] at hfire
      by_cases hn : n = n0
      · rw [if_pos hn] at hfire
        cases hq : st.cameras cid with
        | none => rw [hq] at hfire; cases hfire
        | some p =>
          obtain ⟨c, ec⟩ := p
          rw [hq] at hfire
          cases hfire
          by_cases hx : x = cid
          · subst hx
            right; left
            exact ⟨c, ec, by rw [hn], rfl, by simp⟩
          · left; simp [hx]
      · rw [if_neg hn] at hfire
        cases hfire
        left; rfl
  | out n =>
    cases k with
    | overInsertActive => cases hfire; left; rfl
    | moveEnableCamera cid => cases hfire; left; rfl
    | outRemoveActive =>
      simp only [fireObserver] at hfire
      by_cases hn : n = n0
      · rw [if_pos hn] at hfire
        cases hfire
        left; rfl
      · rw [if_neg hn] at hfire
        cases hfire
        left; rfl
    | outDisableCamera cid =>
      simp only [fireObserver] at hfire
      by_cases hn : n = n0
      · rw [if_pos hn] at hfire
        cases hq : st.cameras cid with
        | none => rw [hq] at hfire; cases hfire
        | some p =>
          obtain ⟨c, ec⟩ := p
          rw [hq] at hfire
          cases hfire
          by_cases hx : x = cid
          · subst hx
            right; right
            exact ⟨c, ec, by simp⟩
          · left; simp [hx]
      · rw [if_neg hn] at hfire
        cases hfire
        left; rfl

/-- One observer firing cannot enable the pane camera unless it is the
pane's own move-enable observer fired by a move on the pane's image
node. -/
theorem fireObserver_keeps_disabled
    (camera_id image_id : Entity) (ev : EntityPointerEvent)
    (st st' : ObserverState) (o : Observer)
    (ho : ∀ cid, o.kind = ObserverKind.moveEnableCamera cid →
      cid ≠ camera_id ∨ o.node = image_id)
    (hev : ev ≠ EntityPointerEvent.move image_id)
    (hfire : fireObserver ev st o = some st')
    (hP : ∀ cam ec, st.cameras camera_id = some (cam, ec) → ec.enabled = false) :
    ∀ cam ec, st'.cameras camera_id = some (cam, ec) → ec.enabled = false := by
  intro cam ec hst'
  rcases fireObserver_cameras_cases ev st st' o hfire camera_id with
    hsame | ⟨c, e0, hev', hkind, hcam'⟩ | ⟨c, e0, hcam'⟩
  · exact hP cam ec (hsame ▸ hst')
  · rcases ho camera_id hkind with hne | hnode
    · exact absurd rfl hne
    · exact absurd (hnode ▸ hev') hev
  · have h := hcam'.symm.trans hst'
    have h2 := congrArg (fun p => p.2.enabled) (Option.some.inj h)
    simpa using h2.symm

/-- Delivering one event through a whole observer list keeps the pane
camera disabled. -/
theorem stepEvent_keeps_disabled
    (camera_id image_id : Entity) (ev : EntityPointerEvent) :
    ∀ (obsList : List Observer) (st st' : ObserverState),
      (∀ o ∈ obsList, ∀ cid, o.kind = ObserverKind.moveEnableCamera cid →
        cid ≠ camera_id ∨ o.node = image_id) →
      ev ≠ EntityPointerEvent.move image_id →
      obsList.foldlM (fireObserver ev) st = some st' →
      (∀ cam ec, st.cameras camera_id = some (cam, ec) → ec.enabled = false) →
      ∀ cam ec, st'.cameras camera_id = some (cam, ec) → ec.enabled = false := by
  intro obsList
  induction obsList with
  | nil =>
    intro st st' _ _ h hP
    cases h
    exact hP
  | cons o os ih =>
    intro st st' hobs hev h hP
    rw [List.foldlM_cons] at h
    cases hf : fireObserver ev st o with
    | none => rw [hf] at h; cases h
    | some st1 =>
      rw [hf] at h
      exact ih st1 st' (fun o' ho' => hobs o' (List.mem_cons_of_mem _ ho')) hev h
        (fireObserver_keeps_disabled camera_id image_id ev st st1 o
          (hobs o (List.mem_cons_self ..)) hev hf hP)

/-- A whole event sequence without a move on the pane's image node keeps
the pane camera disabled. -/
theorem runEvents_keeps_disabled
    (camera_id image_id : Entity) (obsList : List Observer)
    (hobs : ∀ o ∈ obsList, ∀ cid, o.kind = ObserverKind.moveEnableCamera cid →
      cid ≠ camera_id ∨ o.node = image_id) :
    ∀ (evs : List EntityPointerEvent) (st st' : ObserverState),
      (∀ ev ∈ evs, ev ≠ EntityPointerEvent.move image_id) →
      runEvents obsList st evs = some st' →
      (∀ cam ec, st.cameras camera_id = some (cam, ec) → ec.enabled = false) →
      ∀ cam ec, st'.cameras camera_id = some (cam, ec) → ec.enabled = false := by
  intro evs
  induction evs with
  | nil =>
    intro st st' _ h hP
    cases h
    exact hP
  | cons ev rest ih =>
    intro st st' hev h hP
    unfold runEvents at h
    rw [List.foldlM_cons] at h
    cases hs : stepEvent obsList st ev with
    | none => rw [hs] at h; cases h
    | some st1 =>
      rw [hs] at h
      refine ih st1 st' (fun e he => hev e (List.mem_cons_of_mem _ he)) h ?_
      exact stepEvent_keeps_disabled camera_id image_id ev obsList st st1 hobs
        (hev ev (List.mem_cons_self ..)) hs hP

/-- Claim C6: each pane routes its own input. The pane's
`EditorCamera2d` is spawned disabled; a `Pointer<Move>` delivered to the
pane's image node enables exactly that pane's camera; a `Pointer<Out>`
on that node disables it again; and over any event sequence containing
no move on that image node, the camera is never enabled by this code. -/
theorem pane_camera_enabled_only_by_own_move
    (w : PaneWorld) (pane_root content_node : Entity) (ng : NodeGraph)
    (hfind : (iterDescendants w.children w.fuel pane_root).find?
        (fun e => w.content.contains e) = some content_node)
    (hng : w.nodeGraphs pane_root = some ng)
    (hnodes : ∀ o ∈ w.observers, o.node < w.nextEntity)
    (hkinds : ∀ o ∈ w.observers, ∀ cid,
      o.kind = ObserverKind.moveEnableCamera cid → cid < w.nextEntity) :
    ∃ w', on_pane_creation w pane_root = some w' ∧
      w'.cameras (w.nextEntity + 1) =
        some ({ target := RenderTarget.image w.nextHandle },
              { enabled := false, viewport_override := none }) ∧
      (∀ (st : ObserverState) (cam : Camera) (ec : EditorCamera2d),
        st.cameras (w.nextEntity + 1) = some (cam, ec) →
        stepEvent w'.observers st (.move w.nextEntity) =
          some { st with cameras := fun x =>
            if x = w.nextEntity + 1 then some (cam, { ec with enabled := true })
            else st.cameras x }) ∧
      (∀ (st : ObserverState) (cam : Camera) (ec : EditorCamera2d),
        st.cameras (w.nextEntity + 1) = some (cam, ec) →
        stepEvent w'.observers st (.out w.nextEntity) =
          some { active := fun x => if x = w.nextEntity then false else st.active x
                 cameras := fun x =>
                   if x = w.nextEntity + 1 then
                     some (cam, { ec with enabled := false })
                   else st.cameras x }) ∧
      ∀ (evs : List EntityPointerEvent) (st st' : ObserverState),
        (∀ ev ∈ evs, ev ≠ EntityPointerEvent.move w.nextEntity) →
        runEvents w'.observers st evs = some st' →
        (∀ cam ec, st.cameras (w.nextEntity + 1) = some (cam, ec) →
          ec.enabled = false) →
        ∀ cam ec, st'.cameras (w.nextEntity + 1) = some (cam, ec) →
          ec.enabled = false := by
  refine ⟨_, on_pane_creation_run w pane_root content_node ng hfind hng,
    by simp, ?_, ?_, ?_⟩
  · intro st cam ec hcam
    exact stepEvent_move_enables w.observers w.nextEntity (w.nextEntity + 1)
      st cam ec (fun o ho => (ne_of_lt (hnodes o ho)).symm) hcam
  · intro st cam ec hcam
    exact stepEvent_out_disables w.observers w.nextEntity (w.nextEntity + 1)
      st cam ec (fun o ho => (ne_of_lt (hnodes o ho)).symm) hcam
  · intro evs st st' hev hrun hP
    refine runEvents_keeps_disabled (w.nextEntity + 1) w.nextEntity
      (w.observers ++
        [{ node := w.nextEntity, kind := .overInsertActive },
         { node := w.nextEntity, kind := .outRemoveActive },
         { node := w.nextEntity, kind := .moveEnableCamera (w.nextEntity + 1) },
         { node := w.nextEntity, kind := .outDisableCamera (w.nextEntity + 1) }])
      ?_ evs st st' hev hrun hP
    intro o ho cid hk
    rcases List.mem_append.1 ho with h1 | h2
    · left
      exact ne_of_lt (lt_trans (hkinds o h1 cid hk) (Nat.lt_succ_self _))
    · simp only [List.mem_cons, List.not_mem_nil, or_false] at h2
      rcases h2 with rfl | rfl | rfl | rfl
      · simp at hk
      · simp at hk
      · right; rfl
      · simp at hk

/-- Concrete instance of C6 on the sample pane world: camera `3` starts
disabled, a move on image node `2` enables it, an out disables it, and
without a move on node `2` it stays disabled. -/
theorem pane_camera_enabled_only_by_own_move_witness :
    ∃ w', on_pane_creation paneW 0 = some w' ∧
      w'.cameras 3 =
        some ({ target := RenderTarget.image 0 },
              { enabled := false, viewport_override := none }) ∧
      (∀ (st : ObserverState) (cam : Camera) (ec : EditorCamera2d),
        st.cameras 3 = some (cam, ec) →
        stepEvent w'.observers st (.move 2) =
          some { st with cameras := fun x =>
            if x = 3 then some (cam, { ec with enabled := true })
            else st.cameras x }) ∧
      (∀ (st : ObserverState) (cam : Camera) (ec : EditorCamera2d),
        st.cameras 3 = some (cam, ec) →
        stepEvent w'.observers st (.out 2) =
          some { active := fun x => if x = 2 then false else st.active x
                 cameras := fun x =>
                   if x = 3 then some (cam, { ec with enabled := false })
                   else st.cameras x }) ∧
      ∀ (evs : List EntityPointerEvent) (st st' : ObserverState),
        (∀ ev ∈ evs, ev ≠ EntityPointerEvent.move 2) →
        runEvents w'.observers st evs = some st' →
        (∀ cam ec, st.cameras 3 = some (cam, ec) → ec.enabled = false) →
        ∀ cam ec, st'.cameras 3 = some (cam, ec) → ec.enabled = false :=
  pane_camera_enabled_only_by_own_move paneW 0 1 NodeGraph.default
    (by decide) rfl (by intro o ho; cases ho) (by intro o ho; cases ho)

/-- Claim C7: `NodeGraphPlugin::build` is pure plugin registration: it
registers a pane named "Node Graph" whose creation callback inserts a
default `NodeGraph` on the pane root, adds the infinite-grid and 2D
editor-camera plugins only when not already added (never duplicating
either), and installs the startup, passthrough and resize systems and
the two lifecycle observers. -/
theorem node_graph_plugin_build_spec (app : App) :
    ((NodeGraphPlugin.build app).paneRegistry =
      app.paneRegistry ++ [("Node Graph", PaneCallback.insertNodeGraphDefault)]) ∧
    (∀ (pw : PaneWorld) (pane_root : Entity),
      (runPaneCallback PaneCallback.insertNodeGraphDefault pw pane_root).nodeGraphs
          pane_root = some NodeGraph.default ∧
      ∀ e, e ≠ pane_root →
        (runPaneCallback PaneCallback.insertNodeGraphDefault pw pane_root).nodeGraphs e
          = pw.nodeGraphs e) ∧
    ((NodeGraphPlugin.build app).startupSystems =
      app.startupSystems ++ [SystemId.setupSys]) ∧
    ((NodeGraphPlugin.build app).preUpdateSystems =
      app.preUpdateSystems ++ [SystemId.passthroughSys]) ∧
    ((NodeGraphPlugin.build app).postUpdateSystems =
      app.postUpdateSystems ++ [SystemId.resizeSys]) ∧
    ((NodeGraphPlugin.build app).appObservers =
      app.appObservers ++
        [ObserverReg.onPaneCreationObs, ObserverReg.onNodeGraphRemoveObs]) ∧
    App.is_plugin_added (NodeGraphPlugin.build app) PluginId.infiniteGrid = true ∧
    App.is_plugin_added (NodeGraphPlugin.build app) PluginId.editorCamera2d = true ∧
    ((NodeGraphPlugin.build app).plugins.count PluginId.infiniteGrid =
      if app.is_plugin_added PluginId.infiniteGrid then
        app.plugins.count PluginId.infiniteGrid
      else app.plugins.count PluginId.infiniteGrid + 1) ∧
    ((NodeGraphPlugin.build app).plugins.count PluginId.editorCamera2d =
      if app.is_plugin_added PluginId.editorCamera2d then
        app.plugins.count PluginId.editorCamera2d
      else app.plugins.count PluginId.editorCamera2d + 1) := by
  unfold NodeGraphPlugin.build
  by_cases h1 : app.is_plugin_added PluginId.infiniteGrid <;>
    by_cases h2 : app.is_plugin_added PluginId.editorCamera2d <;>
      simp_all [App.is_plugin_added, App.add_plugins, PaneRegistry.register,
        runPaneCallback, List.count_append, List.count_cons, List.count_nil]

end NodeGraphSpec
